import Mathlib

/-!
Shallow Lean embedding of the parts of the vtkplotter code base that the
verified claims are about: the `Actor`/`Volume` data-model layer
(`vtkplotter/actors.py`), the keyboard interaction handler
(`vtkplotter/plotter.py`) and the `thinPlateSpline` analysis entry point
(`vtkplotter/analysis.py`).  Python lists of 3-d points become Lean lists of
`Vec3`, floating point numbers become exact rationals (or reals where a
square root is genuinely computed), in-place mutation becomes explicit state
passing, and `raise RuntimeError()` becomes `Except.error`.
-/

namespace VtkPlotter

/-- A 3-d coordinate / color triple, over ℚ for decidable claims and over ℝ
where the source computes a square root. -/
structure Vec3 (α : Type) where
  x : α
  y : α
  z : α
  deriving DecidableEq, Repr

namespace Vec3

variable {α : Type} [LinearOrderedField α]

instance : Add (Vec3 α) := ⟨fun a b => ⟨a.x + b.x, a.y + b.y, a.z + b.z⟩⟩
instance : Sub (Vec3 α) := ⟨fun a b => ⟨a.x - b.x, a.y - b.y, a.z - b.z⟩⟩
instance : SMul α (Vec3 α) := ⟨fun s a => ⟨s * a.x, s * a.y, s * a.z⟩⟩
instance : Zero (Vec3 α) := ⟨⟨0, 0, 0⟩⟩

/-- Squared Euclidean norm (`np.sum(pts*pts)` of one row). -/
def normSq (a : Vec3 α) : α := a.x ^ 2 + a.y ^ 2 + a.z ^ 2

/-- Squared Euclidean distance between two points. -/
def distSq (a b : Vec3 α) : α := normSq (a - b)

/-- Comparison `‖a - b‖ < c` expressed without a square root: false for `c ≤ 0`,
otherwise compare squares.  This is exactly the result of the float
comparison `np.linalg.norm(current - last) < c` for exact inputs. -/
def normLt (dsq c : α) : Prop := 0 < c ∧ dsq < c ^ 2

instance (dsq c : α) : Decidable (normLt dsq c) := by
  unfold normLt; infer_instance

end Vec3

/-- Rational 3-vector, the workhorse for the decidable claims. -/
abbrev QVec := Vec3 ℚ

/-! ## Actor construction: automatic scalar-array detection and coloring
(`Actor.__init__`, vtkplotter/actors.py lines 807-860). -/

/-- Is `needle` a contiguous substring of `hay` (character lists)?  Embeds
Python's `s in icname.lower()` membership test. -/
def subChars (needle : List Char) : List Char → Bool
  | [] => needle.isEmpty
  | c :: rest => needle.isPrefixOf (c :: rest) || subChars needle rest

/-- Membership `needle in hay` on strings, after lowercasing `hay` character by
character (`icname.lower()`). -/
def strHasSubLower (hay needle : String) : Bool :=
  subChars needle.data (hay.data.map Char.toLower)

/-- The filter `if icname and all(s not in icname.lower() for s in exclude)`
with `exclude = ['normals', 'tcoord']`: the array name must be present,
non-empty, and contain neither excluded word (case-insensitively). -/
def goodArrayName (nm : Option String) : Bool :=
  match nm with
  | none => false
  | some s =>
      !(s == "") && !(strHasSubLower s "normals") && !(strHasSubLower s "tcoord")

/-- First array name passing `goodArrayName`, in storage order: the loops in
`Actor.__init__` scan the arrays in order and `break` at the first good one. -/
def firstGoodName : List (Option String) → Option String
  | [] => none
  | nm :: rest => if goodArrayName nm then nm else firstGoodName rest

/-- Values of `vtkMapper.SetScalarMode*` used by `Actor.__init__`. -/
inductive ScalarMode where
  | default
  | usePointData
  | useCellData
  deriving DecidableEq, Repr

/-- The color-relevant state of a freshly built Actor: the mapper's active
scalar bindings and visibility, and the `vtkProperty` lighting values. -/
structure ActorColorState where
  activePointScalars : Option String
  activeCellScalars : Option String
  scalarMode : ScalarMode
  scalarVisibility : Bool
  color : QVec
  ambient : ℚ
  diffuse : ℚ
  specular : ℚ
  specularPower : ℚ
  deriving DecidableEq, Repr

/-- VTK defaults before `Actor.__init__` touches anything: no active scalars,
scalar visibility on, white color, ambient 0, diffuse 1, specular 0, power 1. -/
def initColorState : ActorColorState :=
  { activePointScalars := none
    activeCellScalars := none
    scalarMode := ScalarMode.default
    scalarVisibility := true
    color := ⟨1, 1, 1⟩
    ambient := 0
    diffuse := 1
    specular := 0
    specularPower := 1 }

/-- The constant-color branch of `Actor.__init__`: `prp.SetColor(c);
SetAmbient(0.1); SetDiffuse(1); SetSpecular(.05); SetSpecularPower(5);
mapper.ScalarVisibilityOff()`. -/
def applyConstantColor (st : ActorColorState) (col : QVec) : ActorColorState :=
  { st with
    color := col
    ambient := 1/10
    diffuse := 1
    specular := 1/20
    specularPower := 5
    scalarVisibility := false }

/-- Modelled from the spec: `colors.getColor` lives in `vtkplotter/colors.py`,
which is not among the provided sources; per the spec the default color name
"gold" resolves to RGB (1, 0.843, 0). -/
def getColorGold : QVec := ⟨1, 843/1000, 0⟩

/-- The scalar-detection / coloring tail of `Actor.__init__`: with `c=None`
the cell-data arrays are scanned first (first good one activated), then the
point-data arrays (first good one activated, overriding — "point come after
so it has priority"); if neither scan finds an array the actor gets the
constant gold color.  With an explicit `c` the constant color is applied
directly.  `ptdata`/`cldata` are the point/cell array names in storage
order. -/
def actorInitColor (c : Option QVec) (ptdata cldata : List (Option String)) :
    ActorColorState :=
  match c with
  | some col => applyConstantColor initColorState col
  | none =>
    let stc := match firstGoodName cldata with
      | some nm =>
          { initColorState with
            activeCellScalars := some nm
            scalarVisibility := true
            scalarMode := ScalarMode.useCellData }
      | none => initColorState
    let stp := match firstGoodName ptdata with
      | some nm =>
          { stc with
            activePointScalars := some nm
            scalarVisibility := true
            scalarMode := ScalarMode.usePointData }
      | none => stc
    if (firstGoodName cldata).isSome || (firstGoodName ptdata).isSome then stp
    else applyConstantColor stp getColorGold

/-! ## Volume.threshold (vtkplotter/actors.py lines 3298-3320). -/

/-- A `Volume`'s underlying image buffer (`self._image`), as the flat list of
its voxel scalars. -/
structure Volume where
  image : List ℚ
  deriving DecidableEq, Repr

/-- The in-range test configured on the `vtkImageThreshold` filter by
`Volume.threshold`: `ThresholdBetween(vmin, vmax)` when both bounds are
given, `ThresholdByLower(vmin)` (voxels ≤ vmin) when only `vmin` is,
`ThresholdByUpper(vmax)` (voxels ≥ vmax) when only `vmax` is; with neither
bound the filter's default thresholds select every voxel. -/
def thrInRange (vmin vmax : Option ℚ) (s : ℚ) : Bool :=
  match vmin, vmax with
  | some a, some b => decide (a ≤ s) && decide (s ≤ b)
  | some a, none => decide (s ≤ a)
  | none, some b => decide (b ≤ s)
  | none, none => true

/-- Embedding of `Volume.threshold(vmin, vmax, replaceWith)`.  The filter is configured,
then `replaceWith is None` is checked: on that path the console error is
printed and `RuntimeError` is raised before `th.Update()` ever runs, so the
image buffer keeps its pre-call contents.  Otherwise `SetInValue(replaceWith)`
replaces every in-range voxel (out-of-range voxels pass through) and
`_updateVolume` installs the filter output.  The result pairs the call's
outcome with the post-call state of the volume object. -/
def Volume.threshold (vol : Volume) (vmin vmax replaceWith : Option ℚ) :
    Except String Volume × Volume :=
  match replaceWith with
  | none =>
      (Except.error "Error in threshold(); you must provide replaceWith", vol)
  | some r =>
      let out : Volume :=
        ⟨vol.image.map (fun s => if thrInRange vmin vmax s then r else s)⟩
      (Except.ok out, out)

/-! ## Keyboard opacity shortcuts ',' '.' '/'
(`Plotter._keypress`, vtkplotter/plotter.py lines 1931-1978). -/

/-- Opaque handle standing for a `vtkProperty` used as back-face property. -/
abbrev BackfaceProp := ℕ

/-- The keypress-relevant state of one actor: its property's opacity, its
current back-face property (`GetBackfaceProperty`), the `_bfprop` stash
(initialized to `None` by `Actor.__init__`, so `hasattr(a, "_bfprop")` always
holds for Actors), and pickability. -/
structure PActor where
  opacity : ℚ
  backface : Option BackfaceProp
  bfprop : Option BackfaceProp
  pickable : Bool
  deriving DecidableEq, Repr

/-- The `','` body: `aal = max([op * 0.75, 0.01]); SetOpacity(aal)`, then any
present back-face property is stashed into `_bfprop` and cleared. -/
def commaKey (a : PActor) : PActor :=
  let a' := { a with opacity := max (a.opacity * (3/4)) (1/100) }
  match a'.backface with
  | some bfp => { a' with bfprop := some bfp, backface := none }
  | none => a'

/-- The `'.'` body: `aal = min([op * 1.25, 1.0]); SetOpacity(aal)`, and when
`aal == 1` a truthy `_bfprop` stash is put back as the back-face property. -/
def periodKey (a : PActor) : PActor :=
  let aal := min (a.opacity * (5/4)) 1
  let a' := { a with opacity := aal }
  if aal = 1 then
    match a'.bfprop with
    | some bfp => { a' with backface := some bfp }
    | none => a'
  else a'

/-- The `'/'` body for the clicked actor: `SetOpacity(1)` and a truthy
`_bfprop` stash is restored via `self.clickedActor.SetBackfaceProperty`. -/
def slashKey (a : PActor) : PActor :=
  let a' := { a with opacity := 1 }
  match a'.bfprop with
  | some bfp => { a' with backface := some bfp }
  | none => a'

/-- The `'/'` body for one actor of the no-clicked-actor loop.  After
`a.GetProperty().SetOpacity(1)`, a truthy `_bfprop` stash triggers
`a.clickedActor.SetBackfaceProperty(a._bfprop)` — but `a` is a plain actor
with no `clickedActor` attribute, so Python raises `AttributeError`. -/
def slashKeyAllOne (a : PActor) : Except String PActor :=
  if a.pickable then
    let a' := { a with opacity := 1 }
    match a'.bfprop with
    | some _ => Except.error "AttributeError: actor has no attribute clickedActor"
    | none => Except.ok a'
  else Except.ok a

/-- The `'/'` loop over `self.getActors()`; the first raised `AttributeError`
aborts the handler. -/
def slashKeyAll : List PActor → Except String (List PActor)
  | [] => Except.ok []
  | a :: rest =>
    match slashKeyAllOne a with
    | Except.error e => Except.error e
    | Except.ok a' =>
      match slashKeyAll rest with
      | Except.error e => Except.error e
      | Except.ok rest' => Except.ok (a' :: rest')

/-! ## Trail buffer (`Prop.addTrail` / `Prop.updateTrail`,
vtkplotter/actors.py lines 408-480). -/

/-- Trail state attached to a node: `self.trailPoints` (a Python list that
starts as `[None] * n`), `self.trailSegmentSize = maxlength / n`, and
`self.trailOffset`. -/
structure TrailState where
  pts : List (Option QVec)
  segSize : ℚ
  offset : Option QVec
  deriving DecidableEq, Repr

/-- Embedding of `Prop.addTrail(offset, maxlength, n)` with an explicit `maxlength`:
initializes `trailPoints = [None] * n` and
`trailSegmentSize = maxlength / n`. -/
def addTrail (offset : Option QVec) (maxlength : ℚ) (n : ℕ) : TrailState :=
  { pts := List.replicate n none, segSize := maxlength / (n : ℚ), offset := offset }

/-- The position recorded by `updateTrail`: the node's current position plus
the trail offset when one was given. -/
def trailCurrent (st : TrailState) (pos : QVec) : QVec :=
  match st.offset with
  | some off => pos + off
  | none => pos

/-- Embedding of `Prop.updateTrail` at current node position `pos`: if the last recorded
entry is `None` the whole list is reset to the current position; if the
current position is less than one segment-length from the last recorded
point nothing happens; otherwise the current position is appended and the
oldest point popped from the front. -/
def updateTrail (st : TrailState) (pos : QVec) : TrailState :=
  let currentpos := trailCurrent st pos
  match st.pts.getLast? with
  | none => st
  | some none =>
      { st with pts := List.replicate st.pts.length (some currentpos) }
  | some (some lastpos) =>
      if Vec3.normLt (Vec3.distSq currentpos lastpos) st.segSize then st
      else { st with pts := (st.pts ++ [some currentpos]).tail }

/-- Relation between adjacent trail-buffer entries maintained by the update
rule: both are recorded points that are either equal (leftover copies of the
reset position) or at least one segment-length apart, or both are the
initial `None`. -/
def trailAdjOk (seg : ℚ) : Option QVec → Option QVec → Prop
  | some a, some b => a = b ∨ ¬ Vec3.normLt (Vec3.distSq b a) seg
  | none, none => True
  | _, _ => False

instance trailAdjOk.instDecidableRel (seg : ℚ) : DecidableRel (trailAdjOk seg) :=
  fun p q =>
    match p, q with
    | some a, some b =>
        inferInstanceAs (Decidable (a = b ∨ ¬ Vec3.normLt (Vec3.distSq b a) seg))
    | none, none => inferInstanceAs (Decidable True)
    | none, some _ => inferInstanceAs (Decidable False)
    | some _, none => inferInstanceAs (Decidable False)

/-- Strict spacing between adjacent recorded points, as the claim states it:
any two consecutive recorded points are at least one segment-length apart. -/
def trailSpacedStrict (seg : ℚ) : Option QVec → Option QVec → Prop
  | some a, some b => ¬ Vec3.normLt (Vec3.distSq b a) seg
  | _, _ => True

instance trailSpacedStrict.instDecidableRel (seg : ℚ) :
    DecidableRel (trailSpacedStrict seg) :=
  fun p q =>
    match p, q with
    | some a, some b =>
        inferInstanceAs (Decidable (¬ Vec3.normLt (Vec3.distSq b a) seg))
    | none, none => inferInstanceAs (Decidable True)
    | none, some _ => inferInstanceAs (Decidable True)
    | some _, none => inferInstanceAs (Decidable True)

/-! ## Actor.decimate (vtkplotter/actors.py lines 2444-2481). -/

/-- Embedding of `Actor.decimate(fraction, N, method, boundaries)`.  The actual
`vtkQuadricDecimation`/`vtkDecimatePro` filter is part of the external
graphics engine, so it enters the model as an abstract `decimator` applied to
the effective fraction (the filter receives `SetTargetReduction(1 - fraction)`).
With `N` given and truthy (Python `if N:` — `N=0` and `N=None` are falsy),
`fraction` is recomputed as `N / GetNumberOfPoints()` and the call returns the
mesh untouched when that fraction is ≥ 1. -/
def decimate (decimator : ℚ → List QVec → List QVec) (mesh : List QVec)
    (fraction : ℚ) (N : Option ℕ) : List QVec :=
  match N with
  | some k =>
      if k ≠ 0 then
        let f := (k : ℚ) / (mesh.length : ℚ)
        if 1 ≤ f then mesh else decimator f mesh
      else decimator fraction mesh
  | none => decimator fraction mesh

/-- A concrete stand-in decimation filter that distinguishes the effective
fraction: it empties the mesh exactly when the target fraction is 0. -/
def decimateProbe : ℚ → List QVec → List QVec :=
  fun f m => if f = 0 then [] else m

/-! ## thinPlateSpline (vtkplotter/analysis.py lines 1446-1490). -/

/-- The landmark-handling prefix of `thinPlateSpline`.  `ns = len(sourcePts)`
but — the slip — `nt = len(sourcePts)` as well, so the
`if ns != nt: printc(...); raise RuntimeError()` guard compares `ns` with
itself and never fires.  The target fill loop then reads `targetPts[i]` for
`i < ns`: when the target list is shorter this raises an uncaught
`IndexError`; when it is longer the extra targets are silently ignored.  The
result carries the (source, target) landmark lists handed to the
`vtkThinPlateSplineTransform`. -/
def thinPlateSpline (sourcePts targetPts : List QVec) :
    Except String (List QVec × List QVec) :=
  let ns := sourcePts.length
  let nt := sourcePts.length
  if ns ≠ nt then
    Except.error "thinPlateSpline Error: #source != #target points"
  else if ns ≤ targetPts.length then
    Except.ok (sourcePts, targetPts.take ns)
  else
    Except.error "IndexError: list index out of range"

/-! ## Actor.normalize (vtkplotter/actors.py lines 1554-1572) and
Actor.averageSize (lines 1346-1359), over exact reals. -/

/-- Real 3-vector, for the parts of the code that take square roots. -/
abbrev RVec := Vec3 ℝ

/-- Componentwise sum of a list of vectors (`np.sum` along axis 0). -/
def vlistSum {α : Type} [LinearOrderedField α] (pts : List (Vec3 α)) : Vec3 α :=
  pts.foldr (· + ·) 0

/-- Embedding of `Actor.centerOfMass()`: `vtkCenterOfMass` with uniform weights, i.e. the
mean of the vertex coordinates. -/
noncomputable def centerOfMass (pts : List RVec) : RVec :=
  (1 / (pts.length : ℝ)) • vlistSum pts

/-- Real-valued twin of `applyMat4`: homogeneous application of a 4×4 matrix
to a point, as `vtkTransformPolyDataFilter` does for the actor matrix. -/
noncomputable def applyMat4R (M : Matrix (Fin 4) (Fin 4) ℝ) (p : RVec) : RVec :=
  let w := M 3 0 * p.x + M 3 1 * p.y + M 3 2 * p.z + M 3 3
  ⟨(M 0 0 * p.x + M 0 1 * p.y + M 0 2 * p.z + M 0 3) / w,
   (M 1 0 * p.x + M 1 1 * p.y + M 1 2 * p.z + M 1 3) / w,
   (M 2 0 * p.x + M 2 1 * p.y + M 2 2 * p.z + M 2 3) / w⟩

/-- An Actor as `Actor.normalize()` sees it: the untransformed point buffer
(`self.poly`) and the actor's user 4×4 matrix (`self.GetMatrix()`). -/
structure RActor where
  poly : List RVec
  matrix : Matrix (Fin 4) (Fin 4) ℝ

/-- Real-valued twin of `polydataOf`, embedding `Actor.polydata(transformed)`:
untransformed access returns the live buffer; transformed access returns the
buffer when the matrix is the identity, otherwise a transformed copy. -/
noncomputable def polydataR (a : RActor) (transformed : Bool) : List RVec :=
  if !transformed then a.poly
  else if a.matrix = 1 then a.poly
  else a.poly.map (applyMat4R a.matrix)

/-- Helper: the pointwise warp `p ↦ scale • (p - cm)` of `normalize()` with
centroid and scale computed from the same list — what `normalize()` amounts
to when the actor's matrix is the identity. -/
noncomputable def normalizePts (pts : List RVec) : List RVec :=
  let cm := centerOfMass pts
  let sumsq := (pts.map (fun p => Vec3.normSq (p - cm))).sum
  let scale := 1 / Real.sqrt (sumsq / (pts.length : ℝ))
  pts.map (fun p => scale • (p - cm))

/-- Embedding of `Actor.normalize()`: `cm = self.centerOfMass()` and
`coords = self.coordinates()` both read the TRANSFORMED view
(`polydata(True)`), and the scale is `1 / sqrt(sum(|p - cm|^2) / n)` over that
view; but the warp `t.Scale(scale); t.Translate(-cm)` — `p ↦ scale * (p - cm)`
— is applied to the UNTRANSFORMED buffer (`tf.SetInputData(self.poly)`), and
`updateMesh` leaves the actor matrix untouched.  On `not len(coords)` the
method returns early with the actor unchanged. -/
noncomputable def normalizeActor (a : RActor) : RActor :=
  let cm := centerOfMass (polydataR a true)
  let coords := polydataR a true
  if coords.length = 0 then a
  else
    let sumsq := (coords.map (fun p => Vec3.normSq (p - cm))).sum
    let scale := 1 / Real.sqrt (sumsq / (coords.length : ℝ))
    { a with poly := a.poly.map (fun p => scale • (p - cm)) }

/-- Helper: mean distance of the points of a list to their centroid. -/
noncomputable def meanDistPts (pts : List RVec) : ℝ :=
  (pts.map (fun p => Real.sqrt (Vec3.normSq (p - centerOfMass pts)))).sum
    / (pts.length : ℝ)

/-- Embedding of `Actor.averageSize()` for meshes of at most 10000 points
(loop step 1): the mean of the vertex distances from the center of mass, both
read from the transformed view (`centerOfMass()` and `coordinates()`). -/
noncomputable def averageSize (a : RActor) : ℝ :=
  meanDistPts (polydataR a true)

/-- The three collinear vertices used to separate the mean distance from the
root-mean-square distance. -/
def exPts : List RVec := [⟨0, 0, 0⟩, ⟨1, 0, 0⟩, ⟨-1, 0, 0⟩]

/-- An identity-transform actor over `exPts`. -/
noncomputable def exActor : RActor := { poly := exPts, matrix := 1 }

/-- The user matrix of an actor moved by `SetPosition(5, 0, 0)`: translation
by 5 along x. -/
noncomputable def transX5 : Matrix (Fin 4) (Fin 4) ℝ :=
  Matrix.of fun i j => if i = j then 1 else if i = 0 ∧ j = 3 then 5 else 0

/-- The `exPts` actor after `SetPosition(5, 0, 0)`. -/
noncomputable def exActorMoved : RActor := { poly := exPts, matrix := transX5 }

/-! ## Actor.setPoints / Actor.coordinates / Actor.polydata
(vtkplotter/actors.py lines 939-951, 2611-2653). -/

/-- An Actor's geometric state: the polygon-mesh point buffer (`self.poly`'s
points) and the actor's user 4×4 matrix (`self.GetMatrix()`). -/
structure ActorGeom where
  poly : List QVec
  matrix : Matrix (Fin 4) (Fin 4) ℚ

/-- Homogeneous application of a 4×4 matrix to a point, as
`vtkTransformPolyDataFilter` does for a matrix transform. -/
def applyMat4 (M : Matrix (Fin 4) (Fin 4) ℚ) (p : QVec) : QVec :=
  let w := M 3 0 * p.x + M 3 1 * p.y + M 3 2 * p.z + M 3 3
  ⟨(M 0 0 * p.x + M 0 1 * p.y + M 0 2 * p.z + M 0 3) / w,
   (M 1 0 * p.x + M 1 1 * p.y + M 1 2 * p.z + M 1 3) / w,
   (M 2 0 * p.x + M 2 1 * p.y + M 2 2 * p.z + M 2 3) / w⟩

/-- Embedding of `Actor.polydata(transformed)`: untransformed access returns the live
buffer; transformed access returns the live buffer when
`utils.isIdentity(GetMatrix())` holds (modelled from the spec: the
identity-check helper lives in the absent utils module and tests the matrix
against the identity), otherwise a transformed copy. -/
def polydataOf (a : ActorGeom) (transformed : Bool) : List QVec :=
  if !transformed then a.poly
  else if a.matrix = 1 then a.poly
  else a.poly.map (applyMat4 a.matrix)

/-- Embedding of `Actor.coordinates(transformed, copy)`: the vertex list of
`polydata(transformed)`; `copy` only decides whether the caller gets an
aliased reference or a fresh copy of the same values. -/
def coordinates (a : ActorGeom) (transformed copy : Bool) : List QVec :=
  polydataOf a transformed

/-- Embedding of `Actor.setPoints(pts)`: overwrites the buffer's points with `pts` and
pokes the identity matrix into the actor. -/
def setPoints (a : ActorGeom) (pts : List QVec) : ActorGeom :=
  { a with poly := pts, matrix := 1 }

/-- Modelled from the spec: `utils.buildPolyData(vertices, faces)` (utils
module, absent from the provided sources) stores the given vertex
coordinates verbatim as the mesh points, and a fresh `vtkActor` starts with
the identity user matrix. -/
def mkActorFromPoints (raw : List QVec) : ActorGeom :=
  { poly := raw, matrix := 1 }

/-! ## Volume.xSlice / ySlice / zSlice (vtkplotter/actors.py lines 3436-3467). -/

/-- Embedding of `Volume.xSlice(i)`: takes the volume dimensions `(nx, ny, nz)`, clamps the
index only from above (`if i > nx - 1: i = nx - 1` — nothing guards negative
indices) and hands `SetExtent(i, i, 0, ny, 0, nz)` to the
`vtkImageDataGeometryFilter` whose output becomes the returned Actor. -/
def xSlice (nx ny nz : ℕ) (i : ℤ) : ℤ × ℤ × ℤ × ℤ × ℤ × ℤ :=
  let i' := if i > (nx : ℤ) - 1 then (nx : ℤ) - 1 else i
  (i', i', 0, (ny : ℤ), 0, (nz : ℤ))

/-- Embedding of `Volume.ySlice(j)`: same shape, extent `(0, nx, j, j, 0, nz)`. -/
def ySlice (nx ny nz : ℕ) (j : ℤ) : ℤ × ℤ × ℤ × ℤ × ℤ × ℤ :=
  let j' := if j > (ny : ℤ) - 1 then (ny : ℤ) - 1 else j
  (0, (nx : ℤ), j', j', 0, (nz : ℤ))

/-- Embedding of `Volume.zSlice(k)`: same shape, extent `(0, nx, 0, ny, k, k)`. -/
def zSlice (nx ny nz : ℕ) (k : ℤ) : ℤ × ℤ × ℤ × ℤ × ℤ × ℤ :=
  let k' := if k > (nz : ℤ) - 1 then (nz : ℤ) - 1 else k
  (0, (nx : ℤ), 0, (ny : ℤ), k', k')

/-! ## Actor construction from a cell-less vtkPolyData
(vtkplotter/actors.py lines 727-735). -/

/-- A `vtkPolyData` as the constructor branch sees it: points plus the vertex,
line and polygon cell arrays; `GetNumberOfCells()` counts them all. -/
structure PolyData where
  points : List QVec
  verts : List (List ℕ)
  lineCells : List (List ℕ)
  polyCells : List (List ℕ)
  deriving DecidableEq, Repr

/-- Total cell count, `GetNumberOfCells()`. -/
def PolyData.numCells (pd : PolyData) : ℕ :=
  pd.verts.length + pd.lineCells.length + pd.polyCells.length

/-- Outcome of the `"PolyData" in inputtype` branch of `Actor.__init__`: the
actor's mesh buffer, the caller's polydata object after the call, and whether
the buffer is the very input object (this branch stores `self.poly = inputobj`
with no DeepCopy, unlike the Actor-input branch). -/
structure InitResult where
  actorPoly : PolyData
  callerPoly : PolyData
  aliased : Bool
  deriving DecidableEq, Repr

/-- The `"PolyData"` branch of `Actor.__init__`: if the input has zero cells,
a cell array with one single-point vertex cell per point is built and
installed with `inputobj.SetVerts(carr)` — mutating the caller's object in
place — and the actor caches that same object. -/
def actorInitFromPolyData (pd : PolyData) : InitResult :=
  let pd' :=
    if pd.numCells = 0 then
      { pd with verts := (List.range pd.points.length).map (fun i => [i]) }
    else pd
  { actorPoly := pd', callerPoly := pd', aliased := true }

/-! ### Theorems -/

namespace Vec3

variable {α : Type} [LinearOrderedField α]

theorem add_def (a b : Vec3 α) : a + b = ⟨a.x + b.x, a.y + b.y, a.z + b.z⟩ := rfl
theorem sub_def (a b : Vec3 α) : a - b = ⟨a.x - b.x, a.y - b.y, a.z - b.z⟩ := rfl
theorem smul_def (s : α) (a : Vec3 α) : s • a = ⟨s * a.x, s * a.y, s * a.z⟩ := rfl
theorem zero_def : (0 : Vec3 α) = ⟨0, 0, 0⟩ := rfl

theorem normSq_nonneg (a : Vec3 α) : 0 ≤ normSq a := by
  have hx := sq_nonneg a.x
  have hy := sq_nonneg a.y
  have hz := sq_nonneg a.z
  unfold normSq; linarith

theorem normSq_eq_zero_iff (a : Vec3 α) : normSq a = 0 ↔ a = 0 := by
  constructor
  · intro h
    have hx := sq_nonneg a.x
    have hy := sq_nonneg a.y
    have hz := sq_nonneg a.z
    unfold normSq at h
    have hx0 : a.x ^ 2 = 0 := by linarith
    have hy0 : a.y ^ 2 = 0 := by linarith
    have hz0 : a.z ^ 2 = 0 := by linarith
    cases a
    simp only [zero_def, Vec3.mk.injEq]
    exact ⟨pow_eq_zero_iff (by norm_num) |>.1 hx0,
           pow_eq_zero_iff (by norm_num) |>.1 hy0,
           pow_eq_zero_iff (by norm_num) |>.1 hz0⟩
  · intro h; subst h; simp [normSq, zero_def]

end Vec3

/-- C1: for an Actor constructed with `c=None`, if the mesh has a named point
or cell array whose name avoids "normals"/"tcoord", the first such point array
(else the first such cell array) becomes the active coloring source with
scalar visibility on; with no such array the actor gets constant gold color
(1, 0.843, 0), ambient 0.1, diffuse 1, specular 0.05, specular power 5 and
scalar visibility off. -/
theorem actor_autoColor_detection (ptdata cldata : List (Option String)) :
    (∀ nm, firstGoodName ptdata = some nm →
        (actorInitColor none ptdata cldata).activePointScalars = some nm ∧
        (actorInitColor none ptdata cldata).scalarMode = ScalarMode.usePointData ∧
        (actorInitColor none ptdata cldata).scalarVisibility = true) ∧
    (firstGoodName ptdata = none →
      ∀ nm, firstGoodName cldata = some nm →
        (actorInitColor none ptdata cldata).activeCellScalars = some nm ∧
        (actorInitColor none ptdata cldata).scalarMode = ScalarMode.useCellData ∧
        (actorInitColor none ptdata cldata).scalarVisibility = true) ∧
    (firstGoodName ptdata = none → firstGoodName cldata = none →
        (actorInitColor none ptdata cldata).color = getColorGold ∧
        (actorInitColor none ptdata cldata).ambient = 1/10 ∧
        (actorInitColor none ptdata cldata).diffuse = 1 ∧
        (actorInitColor none ptdata cldata).specular = 1/20 ∧
        (actorInitColor none ptdata cldata).specularPower = 5 ∧
        (actorInitColor none ptdata cldata).scalarVisibility = false) := by
  refine ⟨?_, ?_, ?_⟩
  · intro nm hp
    cases hc : firstGoodName cldata with
    | none => simp [actorInitColor, hp, hc]
    | some m => simp [actorInitColor, hp, hc]
  · intro hp nm hc
    simp [actorInitColor, hp, hc]
  · intro hp hc
    simp [actorInitColor, hp, hc, applyConstantColor]

/-- Witness for C1 at concrete inputs: a point array "elev" (with a cell
array also present) is activated as point scalars, and an array-free mesh
gets the gold constant color with scalar visibility off. -/
theorem actor_autoColor_detection_witness :
    (actorInitColor none [some "Normals", some "elev"] [some "ctype"]).activePointScalars
        = some "elev" ∧
    (actorInitColor none [some "Normals"] []).color = getColorGold ∧
    (actorInitColor none [some "Normals"] []).scalarVisibility = false := by
  refine ⟨?_, ?_, ?_⟩
  · exact ((actor_autoColor_detection [some "Normals", some "elev"] [some "ctype"]).1
      "elev" (by decide)).1
  · exact ((actor_autoColor_detection [some "Normals"] []).2.2 (by decide) (by decide)).1
  · exact ((actor_autoColor_detection [some "Normals"] []).2.2 (by decide) (by decide)).2.2.2.2.2

/-- C2: `Volume.threshold` with `replaceWith` omitted reports the console
error and raises, leaving the image buffer unchanged; with `replaceWith`
supplied every voxel whose scalar lies in the selected range is replaced by
that value. -/
theorem volume_threshold_spec (vol : Volume) (vmin vmax : Option ℚ) :
    ((vol.threshold vmin vmax none).1 =
        Except.error "Error in threshold(); you must provide replaceWith" ∧
      (vol.threshold vmin vmax none).2 = vol) ∧
    (∀ (r : ℚ) (i : ℕ), i < vol.image.length →
      thrInRange vmin vmax (vol.image.getD i 0) = true →
      (vol.threshold vmin vmax (some r)).2.image.getD i 0 = r) := by
  refine ⟨⟨rfl, rfl⟩, ?_⟩
  intro r i hi hr
  have h2 : vol.image.get? i = some vol.image[i] := by
    rw [List.get?_eq_getElem?, List.getElem?_eq_getElem hi]
  simp only [Volume.threshold, List.getD, List.get?_map, h2, Option.map_some',
    Option.getD_some]
  rw [List.getD, h2, Option.getD_some] at hr
  simp [hr]

/-- Witness for C2 on the volume `[1, 5, 9]` with range `[2, 6]`: the call
without `replaceWith` errors and keeps the buffer, and with `replaceWith=0`
the in-range voxel `5` (index 1) becomes `0`. -/
theorem volume_threshold_spec_witness :
    ((Volume.mk [1, 5, 9]).threshold (some 2) (some 6) none).1 =
        Except.error "Error in threshold(); you must provide replaceWith" ∧
    ((Volume.mk [1, 5, 9]).threshold (some 2) (some 6) (some 0)).2.image.getD 1 0 = 0 := by
  exact ⟨(volume_threshold_spec ⟨[1, 5, 9]⟩ (some 2) (some 6)).1.1,
    (volume_threshold_spec ⟨[1, 5, 9]⟩ (some 2) (some 6)).2 0 1 (by decide) (by decide)⟩

/-- C3 (code bug): `','` never drives opacity below 0.01 and `'.'` never
above 1, and `'/'` on the clicked actor resets opacity to 1 restoring the
stashed back-face property; but the all-pickable-actors `'/'` branch hits the
`a.clickedActor` typo and raises `AttributeError` for any pickable actor with
a stashed back-face property, instead of restoring it. -/
theorem keypress_opacity_slash_bug :
    (∀ a : PActor, 1/100 ≤ (commaKey a).opacity) ∧
    (∀ a : PActor, (periodKey a).opacity ≤ 1) ∧
    (∀ a : PActor, (slashKey a).opacity = 1 ∧
      ∀ bfp, a.bfprop = some bfp → (slashKey a).backface = some bfp) ∧
    slashKeyAll [⟨1/2, none, some 0, true⟩] =
      Except.error "AttributeError: actor has no attribute clickedActor" := by
  refine ⟨?_, ?_, ?_, rfl⟩
  · intro a
    have h : 1/100 ≤ max (a.opacity * (3/4)) (1/100 : ℚ) := le_max_right _ _
    unfold commaKey
    cases a.backface <;> simp only [commaKey] <;> exact h
  · intro a
    have h : min (a.opacity * (5/4)) 1 ≤ (1 : ℚ) := min_le_right _ _
    unfold periodKey
    by_cases hc : min (a.opacity * (5/4)) 1 = (1 : ℚ)
    · cases hb : a.bfprop <;> simp [hc, hb]
    · simp only [periodKey, hc, if_false]
      exact h
  · intro a
    unfold slashKey
    cases hb : a.bfprop <;> simp [hb]

/-- Witness for C3: concrete opacity floor/ceiling values and a concrete
clicked-actor `'/'` reset with back-face restore. -/
theorem keypress_opacity_slash_bug_witness :
    1/100 ≤ (commaKey ⟨1/2, none, none, true⟩).opacity ∧
    (periodKey ⟨1/2, none, none, true⟩).opacity ≤ 1 ∧
    (slashKey ⟨1/2, none, some 0, true⟩).opacity = 1 ∧
    (slashKey ⟨1/2, none, some 0, true⟩).backface = some 0 :=
  ⟨keypress_opacity_slash_bug.1 ⟨1/2, none, none, true⟩,
   keypress_opacity_slash_bug.2.1 ⟨1/2, none, none, true⟩,
   (keypress_opacity_slash_bug.2.2.1 ⟨1/2, none, some 0, true⟩).1,
   (keypress_opacity_slash_bug.2.2.1 ⟨1/2, none, some 0, true⟩).2 0 rfl⟩

theorem updateTrail_pts_length (st : TrailState) (pos : QVec) :
    (updateTrail st pos).pts.length = st.pts.length := by
  unfold updateTrail
  cases h : st.pts.getLast? with
  | none => rfl
  | some o =>
    cases o with
    | none => simp
    | some lastpos =>
      by_cases hlt : Vec3.normLt (Vec3.distSq (trailCurrent st pos) lastpos) st.segSize
      · simp [hlt]
      · simp [hlt]

theorem updateTrail_segSize (st : TrailState) (pos : QVec) :
    (updateTrail st pos).segSize = st.segSize := by
  unfold updateTrail
  cases h : st.pts.getLast? with
  | none => rfl
  | some o =>
    cases o with
    | none => rfl
    | some lastpos =>
      by_cases hlt : Vec3.normLt (Vec3.distSq (trailCurrent st pos) lastpos) st.segSize
      · simp [hlt]
      · simp [hlt]

theorem chain'_replicate_of_refl {α : Type} (R : α → α → Prop) (x : α)
    (hx : R x x) : ∀ n : ℕ, List.Chain' R (List.replicate n x)
  | 0 => List.chain'_nil
  | 1 => List.chain'_singleton x
  | n + 2 => by
    rw [List.replicate_succ, List.replicate_succ, List.chain'_cons,
      ← List.replicate_succ]
    exact ⟨hx, chain'_replicate_of_refl R x hx (n + 1)⟩

theorem updateTrail_chain (st : TrailState) (pos : QVec)
    (h : List.Chain' (trailAdjOk st.segSize) st.pts) :
    List.Chain' (trailAdjOk st.segSize) (updateTrail st pos).pts := by
  unfold updateTrail
  cases hl : st.pts.getLast? with
  | none => exact h
  | some o =>
    cases o with
    | none =>
      have hr := chain'_replicate_of_refl (trailAdjOk st.segSize)
        (some (trailCurrent st pos))
        (show trailAdjOk st.segSize (some (trailCurrent st pos))
            (some (trailCurrent st pos)) from Or.inl rfl)
        st.pts.length
      simpa using hr
    | some lastpos =>
      by_cases hlt : Vec3.normLt (Vec3.distSq (trailCurrent st pos) lastpos) st.segSize
      · simpa [hlt] using h
      · simp only [hlt, if_false]
        apply List.Chain'.tail
        rw [List.chain'_append]
        refine ⟨h, List.chain'_singleton _, ?_⟩
        intro x hx y hy
        rw [hl] at hx
        simp only [Option.mem_def, Option.some.injEq] at hx
        simp only [List.head?_cons, Option.mem_def, Option.some.injEq] at hy
        subst hx; subst hy
        exact Or.inr hlt

/-- C4 (amended): each `updateTrail` appends the current (optionally offset)
position and drops the oldest recorded point exactly when the current
position is at least one segment-length `M/N` from the last recorded point
(otherwise the buffer is unchanged); after `addTrail(maxlength=M, n=N)` the
buffer always holds exactly `N` entries under any update sequence, and
consecutive recorded points are either leftover equal copies of the reset
position or at least `M/N` apart. -/
theorem trail_constant_density (off : Option QVec) (M : ℚ) (n : ℕ)
    (moves : List QVec) :
    (∀ (st : TrailState) (pos lastpos : QVec),
      st.pts.getLast? = some (some lastpos) →
      (Vec3.normLt (Vec3.distSq (trailCurrent st pos) lastpos) st.segSize →
        updateTrail st pos = st) ∧
      (¬ Vec3.normLt (Vec3.distSq (trailCurrent st pos) lastpos) st.segSize →
        (updateTrail st pos).pts = (st.pts ++ [some (trailCurrent st pos)]).tail)) ∧
    (moves.foldl updateTrail (addTrail off M n)).pts.length = n ∧
    List.Chain' (trailAdjOk (M / (n : ℚ)))
      (moves.foldl updateTrail (addTrail off M n)).pts := by
  refine ⟨?_, ?_⟩
  · intro st pos lastpos hl
    constructor
    · intro hlt
      unfold updateTrail
      rw [hl]
      simp [hlt]
    · intro hlt
      unfold updateTrail
      rw [hl]
      simp [hlt]
  · have main : ∀ (ms : List QVec) (st : TrailState),
        st.pts.length = n → st.segSize = M / (n : ℚ) →
        List.Chain' (trailAdjOk (M / (n : ℚ))) st.pts →
        (ms.foldl updateTrail st).pts.length = n ∧
        List.Chain' (trailAdjOk (M / (n : ℚ))) (ms.foldl updateTrail st).pts := by
      intro ms
      induction ms with
      | nil => intro st h1 h2 h3; exact ⟨h1, h3⟩
      | cons m rest ih =>
        intro st h1 h2 h3
        simp only [List.foldl_cons]
        apply ih
        · rw [updateTrail_pts_length, h1]
        · rw [updateTrail_segSize, h2]
        · have hch := updateTrail_chain st m (by rw [h2]; exact h3)
          rwa [h2] at hch
    refine main moves (addTrail off M n) ?_ rfl ?_
    · simp [addTrail]
    · exact chain'_replicate_of_refl _ none trivial n

/-- Witness for C4: a one-point trail at segment size 2 ignores a move of
distance 1 (below threshold), and one update on a fresh 3-entry trail keeps
the buffer at 3 entries. -/
theorem trail_constant_density_witness :
    updateTrail ⟨[some ⟨0, 0, 0⟩], 2, none⟩ ⟨1, 0, 0⟩ = ⟨[some ⟨0, 0, 0⟩], 2, none⟩ ∧
    (([⟨1, 0, 0⟩] : List QVec).foldl updateTrail (addTrail none 3 3)).pts.length = 3 := by
  have h := trail_constant_density none 3 3 [⟨1, 0, 0⟩]
  refine ⟨(h.1 ⟨[some ⟨0, 0, 0⟩], 2, none⟩ ⟨1, 0, 0⟩ ⟨0, 0, 0⟩ rfl).1 ?_, h.2.1⟩
  refine ⟨by norm_num, ?_⟩
  simp only [trailCurrent, Vec3.distSq, Vec3.normSq, Vec3.sub_def]
  norm_num

/-- Counterexample for C4 as stated: with `maxlength M = 3` and `n = N = 3`
(segment length 1), a node at the origin whose trail is initialized there and
which then moves in one step to `(3,0,0)` has covered total distance 3 ≥ M,
yet the buffer `[p0, p0, (3,0,0)]` contains two consecutive recorded points
at distance 0 < M/N. -/
theorem trail_spacing_counterexample :
    (updateTrail (updateTrail (addTrail none 3 3) ⟨0, 0, 0⟩) ⟨3, 0, 0⟩).pts =
      [some ⟨0, 0, 0⟩, some ⟨0, 0, 0⟩, some ⟨3, 0, 0⟩] ∧
    (updateTrail (updateTrail (addTrail none 3 3) ⟨0, 0, 0⟩) ⟨3, 0, 0⟩).segSize = 3 / 3 ∧
    ¬ List.Chain' (trailSpacedStrict (3 / 3))
      (updateTrail (updateTrail (addTrail none 3 3) ⟨0, 0, 0⟩) ⟨3, 0, 0⟩).pts := by
  have e1 : addTrail none 3 3 = ⟨[none, none, none], 1, none⟩ := by
    simp only [addTrail, List.replicate, TrailState.mk.injEq]
    norm_num
  have e2 : updateTrail ⟨[none, none, none], 1, none⟩ ⟨0, 0, 0⟩ =
      ⟨[some ⟨0, 0, 0⟩, some ⟨0, 0, 0⟩, some ⟨0, 0, 0⟩], 1, none⟩ := by
    simp [updateTrail, trailCurrent, List.getLast?, List.replicate]
  have hg : ¬ Vec3.normLt (Vec3.distSq (⟨3, 0, 0⟩ : QVec) ⟨0, 0, 0⟩) 1 := by
    simp only [Vec3.normLt, Vec3.distSq, Vec3.normSq, Vec3.sub_def, not_and, not_lt]
    intro _
    norm_num
  have e3 : updateTrail ⟨[some ⟨0, 0, 0⟩, some ⟨0, 0, 0⟩, some ⟨0, 0, 0⟩], 1, none⟩
      ⟨3, 0, 0⟩ = ⟨[some ⟨0, 0, 0⟩, some ⟨0, 0, 0⟩, some ⟨3, 0, 0⟩], 1, none⟩ := by
    simp [updateTrail, trailCurrent, List.getLast?, hg]
  have h33 : (3 : ℚ) / 3 = 1 := by norm_num
  rw [e1, e2, e3, h33]
  refine ⟨rfl, rfl, ?_⟩
  intro hchain
  have h01 := (List.chain'_cons.1 hchain).1
  simp only [trailSpacedStrict, Vec3.normLt, Vec3.distSq, Vec3.normSq, Vec3.sub_def,
    not_and, not_lt] at h01
  have := h01 (by norm_num)
  norm_num at this

/-- Counterexample for C5 as stated: with `N = 0` the Python guard `if N:` is
false, so the fraction is NOT recomputed to `0 / P` — the call runs the
filter with the fraction argument that was passed (here 0.5), not with the
recomputed `0 / 2` the claim prescribes. -/
theorem decimate_N_zero_counterexample :
    decimate decimateProbe [⟨0, 0, 0⟩, ⟨1, 0, 0⟩] (1/2) (some 0) ≠
      decimateProbe ((0 : ℚ) / ((2 : ℕ) : ℚ)) [⟨0, 0, 0⟩, ⟨1, 0, 0⟩] := by
  have hL : decimate decimateProbe [⟨0, 0, 0⟩, ⟨1, 0, 0⟩] (1/2) (some 0) =
      [⟨0, 0, 0⟩, ⟨1, 0, 0⟩] := by
    simp only [decimate, ne_eq, not_true_eq_false, if_false, decimateProbe]
    norm_num
  have hR : decimateProbe ((0 : ℚ) / ((2 : ℕ) : ℚ)) [⟨0, 0, 0⟩, ⟨1, 0, 0⟩] = [] := by
    simp only [decimateProbe]
    norm_num
  rw [hL, hR]
  simp

/-- C5 (amended): for every non-empty mesh and every `k ≥ 1` (for `k = 0` the
`if N:` guard is false and the passed-in fraction stays in effect),
`decimate(N=k)` recomputes `fraction = k/P` and is a no-op returning the mesh
unmodified exactly when that fraction is ≥ 1, i.e. when `k ≥ P` — in
particular for `k = 2·P`; otherwise the filter runs with the recomputed
fraction. -/
theorem decimate_N_noop (decimator : ℚ → List QVec → List QVec)
    (mesh : List QVec) (fraction : ℚ) (k : ℕ)
    (hk : 1 ≤ k) (hP : 0 < mesh.length) :
    decimate decimator mesh fraction (some k) =
      if mesh.length ≤ k then mesh
      else decimator ((k : ℚ) / (mesh.length : ℚ)) mesh := by
  have hk0 : k ≠ 0 := Nat.pos_iff_ne_zero.1 hk
  have hcast : (0 : ℚ) < (mesh.length : ℚ) := by exact_mod_cast hP
  have hiff : (1 ≤ (k : ℚ) / (mesh.length : ℚ)) ↔ mesh.length ≤ k := by
    rw [one_le_div hcast]
    exact_mod_cast Iff.rfl
  simp only [decimate, hk0, ne_eq, not_false_eq_true, if_true]
  by_cases h : mesh.length ≤ k
  · rw [if_pos (hiff.2 h), if_pos h]
  · rw [if_neg (fun hc => h (hiff.1 hc)), if_neg h]

/-- Witness for C5 at `P = 2`, `k = 4 = 2·P`: the call is a no-op. -/
theorem decimate_N_noop_witness :
    decimate decimateProbe [⟨0, 0, 0⟩, ⟨1, 0, 0⟩] (1/2) (some 4) =
      [⟨0, 0, 0⟩, ⟨1, 0, 0⟩] := by
  have h := decimate_N_noop decimateProbe [⟨0, 0, 0⟩, ⟨1, 0, 0⟩] (1/2) 4
    (by norm_num) (by norm_num)
  rw [h, if_pos (by norm_num)]

/-- C6 (code bug, evaluated at the failing inputs): with 2 source landmarks
and 3 target landmarks the call silently proceeds, truncating the target list
instead of reporting the mismatch and raising; with 3 source and 1 target
landmarks it dies with an uncaught IndexError rather than the advertised
console report. -/
theorem thinPlateSpline_mismatch_not_caught :
    thinPlateSpline [⟨0, 0, 0⟩, ⟨1, 0, 0⟩] [⟨0, 0, 0⟩, ⟨1, 0, 0⟩, ⟨2, 0, 0⟩] =
      Except.ok ([⟨0, 0, 0⟩, ⟨1, 0, 0⟩], [⟨0, 0, 0⟩, ⟨1, 0, 0⟩]) ∧
    thinPlateSpline [⟨0, 0, 0⟩, ⟨1, 0, 0⟩, ⟨2, 0, 0⟩] [⟨0, 0, 0⟩] =
      Except.error "IndexError: list index out of range" := by
  exact ⟨rfl, rfl⟩

theorem vec_ext {α : Type} {a b : Vec3 α} (hx : a.x = b.x) (hy : a.y = b.y)
    (hz : a.z = b.z) : a = b := by
  cases a; cases b; cases hx; cases hy; cases hz; rfl

section Vec3Components

variable {α : Type} [LinearOrderedField α]

@[simp] theorem add_x (a b : Vec3 α) : (a + b).x = a.x + b.x := rfl
@[simp] theorem add_y (a b : Vec3 α) : (a + b).y = a.y + b.y := rfl
@[simp] theorem add_z (a b : Vec3 α) : (a + b).z = a.z + b.z := rfl
@[simp] theorem sub_x (a b : Vec3 α) : (a - b).x = a.x - b.x := rfl
@[simp] theorem sub_y (a b : Vec3 α) : (a - b).y = a.y - b.y := rfl
@[simp] theorem sub_z (a b : Vec3 α) : (a - b).z = a.z - b.z := rfl
@[simp] theorem smul_x (s : α) (a : Vec3 α) : (s • a).x = s * a.x := rfl
@[simp] theorem smul_y (s : α) (a : Vec3 α) : (s • a).y = s * a.y := rfl
@[simp] theorem smul_z (s : α) (a : Vec3 α) : (s • a).z = s * a.z := rfl
@[simp] theorem zero_x : (0 : Vec3 α).x = 0 := rfl
@[simp] theorem zero_y : (0 : Vec3 α).y = 0 := rfl
@[simp] theorem zero_z : (0 : Vec3 α).z = 0 := rfl

@[simp] theorem vlistSum_nil : vlistSum ([] : List (Vec3 α)) = 0 := rfl

@[simp] theorem vlistSum_cons (p : Vec3 α) (l : List (Vec3 α)) :
    vlistSum (p :: l) = p + vlistSum l := rfl

@[simp] theorem vsub_zero (a : Vec3 α) : a - 0 = a := by
  apply vec_ext <;> simp

theorem vsub_eq_zero_iff (a b : Vec3 α) : a - b = 0 ↔ a = b := by
  constructor
  · intro h
    have hx := congrArg Vec3.x h
    have hy := congrArg Vec3.y h
    have hz := congrArg Vec3.z h
    simp only [sub_x, sub_y, sub_z, zero_x, zero_y, zero_z, sub_eq_zero] at hx hy hz
    exact vec_ext hx hy hz
  · intro h; subst h; apply vec_ext <;> simp

end Vec3Components

theorem vlistSum_map_smul_sub (s : ℝ) (c : RVec) (pts : List RVec) :
    vlistSum (pts.map (fun p => s • (p - c))) =
      s • (vlistSum pts - (pts.length : ℝ) • c) := by
  induction pts with
  | nil => apply vec_ext <;> simp
  | cons p l ih =>
    simp only [List.map_cons, vlistSum_cons, ih, List.length_cons]
    apply vec_ext <;> (simp; push_cast; ring)

theorem sum_normSq_map_smul_sub (s : ℝ) (c : RVec) (pts : List RVec) :
    ((pts.map (fun p => s • (p - c))).map (fun q => Vec3.normSq q)).sum
      = s ^ 2 * (pts.map (fun p => Vec3.normSq (p - c))).sum := by
  induction pts with
  | nil => simp
  | cons p l ih =>
    simp only [List.map_cons, List.sum_cons]
    rw [ih]
    simp only [Vec3.normSq, smul_x, smul_y, smul_z, sub_x, sub_y, sub_z]
    ring

theorem sum_normSq_pos (c : RVec) (pts : List RVec) (h : ∃ p ∈ pts, p ≠ c) :
    0 < (pts.map (fun p => Vec3.normSq (p - c))).sum := by
  obtain ⟨p, hp, hne⟩ := h
  have hnonneg : ∀ x ∈ pts.map (fun p => Vec3.normSq (p - c)), 0 ≤ x := by
    intro x hx
    obtain ⟨q, _, rfl⟩ := List.mem_map.1 hx
    exact Vec3.normSq_nonneg _
  have hmem : Vec3.normSq (p - c) ∈ pts.map (fun p => Vec3.normSq (p - c)) :=
    List.mem_map_of_mem _ hp
  have hle := List.single_le_sum hnonneg _ hmem
  have hpos : 0 < Vec3.normSq (p - c) := by
    rcases lt_or_eq_of_le (Vec3.normSq_nonneg (p - c)) with h | h
    · exact h
    · exact absurd ((vsub_eq_zero_iff p c).1 ((Vec3.normSq_eq_zero_iff _).1 h.symm)) hne
  linarith

theorem centerOfMass_normalizePts (pts : List RVec) (h : pts ≠ []) :
    centerOfMass (normalizePts pts) = 0 := by
  have h0 : pts.length ≠ 0 := by simpa [List.length_eq_zero] using h
  have hn : (pts.length : ℝ) ≠ 0 := Nat.cast_ne_zero.2 h0
  simp only [normalizePts, centerOfMass]
  rw [vlistSum_map_smul_sub]
  apply vec_ext <;> (simp; field_simp)

theorem normalizePts_rms_unit (pts : List RVec) (h1 : pts ≠ [])
    (h2 : ∃ p ∈ pts, p ≠ centerOfMass pts) :
    centerOfMass (normalizePts pts) = 0 ∧
    ((normalizePts pts).map
        (fun q => Vec3.normSq (q - centerOfMass (normalizePts pts)))).sum
      / ((normalizePts pts).length : ℝ) = 1 := by
  have hcm0 := centerOfMass_normalizePts pts h1
  refine ⟨hcm0, ?_⟩
  rw [hcm0]
  simp only [vsub_zero]
  have h0 : pts.length ≠ 0 := by simpa [List.length_eq_zero] using h1
  have hnpos : 0 < (pts.length : ℝ) := by
    have : 0 < pts.length := Nat.pos_of_ne_zero h0
    exact_mod_cast this
  have hSpos : 0 < (pts.map (fun p => Vec3.normSq (p - centerOfMass pts))).sum :=
    sum_normSq_pos _ _ h2
  simp only [normalizePts]
  rw [sum_normSq_map_smul_sub, List.length_map]
  rw [div_pow, one_pow, Real.sq_sqrt (le_of_lt (div_pos hSpos hnpos)), one_div_div]
  have hSne := ne_of_gt hSpos
  have hnne := ne_of_gt hnpos
  field_simp

theorem polydataR_id (a : RActor) (hM : a.matrix = 1) (tr : Bool) :
    polydataR a tr = a.poly := by
  unfold polydataR
  cases tr <;> simp [hM]

theorem normalizeActor_id (a : RActor) (hM : a.matrix = 1) (h1 : a.poly ≠ []) :
    normalizeActor a = { poly := normalizePts a.poly, matrix := a.matrix } := by
  have h0 : a.poly.length ≠ 0 := by simpa [List.length_eq_zero] using h1
  simp only [normalizeActor, normalizePts, polydataR_id a hM, h0, if_false]

/-- C7 (amended): after `normalize()` on a non-empty identity-transform Actor
with at least one vertex away from the centroid, the center of mass is at the
origin and the mean SQUARED vertex-to-centroid distance is 1 — the scale
`1/sqrt(sum(pts*pts)/n)` normalizes the root-mean-square distance, not the
mean distance; for actors whose user matrix is not the identity even the
centering clause fails, because the warp is applied to the untransformed
buffer while centroid and scale come from the transformed view. -/
theorem normalize_rms_unit (a : RActor) (hM : a.matrix = 1) (h1 : a.poly ≠ [])
    (h2 : ∃ p ∈ polydataR a true, p ≠ centerOfMass (polydataR a true)) :
    centerOfMass (polydataR (normalizeActor a) true) = 0 ∧
    ((polydataR (normalizeActor a) true).map
        (fun q => Vec3.normSq (q - centerOfMass (polydataR (normalizeActor a) true)))).sum
      / ((polydataR (normalizeActor a) true).length : ℝ) = 1 := by
  rw [polydataR_id a hM] at h2
  rw [normalizeActor_id a hM h1,
    polydataR_id { poly := normalizePts a.poly, matrix := a.matrix } hM]
  exact normalizePts_rms_unit a.poly h1 h2

theorem exPts_centerOfMass : centerOfMass exPts = 0 := by
  apply vec_ext <;> (simp [centerOfMass, exPts]; try norm_num)

theorem centerOfMass_symm3 (c : ℝ) :
    centerOfMass [⟨0, 0, 0⟩, ⟨c, 0, 0⟩, ⟨-c, 0, 0⟩] = 0 := by
  apply vec_ext <;> (simp [centerOfMass]; try ring_nf)

theorem meanDistPts_symm3 (c : ℝ) (hc : 0 ≤ c) :
    meanDistPts [⟨0, 0, 0⟩, ⟨c, 0, 0⟩, ⟨-c, 0, 0⟩] = 2 * c / 3 := by
  simp only [meanDistPts, centerOfMass_symm3, vsub_zero, List.map_cons, List.map_nil,
    List.sum_cons, List.sum_nil, List.length_cons, List.length_nil, Vec3.normSq,
    neg_sq, ne_eq, OfNat.ofNat_ne_zero, not_false_eq_true, zero_pow, add_zero,
    zero_add, Real.sqrt_zero, Real.sqrt_sq hc]
  push_cast
  ring

/-- Witness for C7 at the identity-transform actor over the three collinear
vertices (0,0,0), (1,0,0), (-1,0,0). -/
theorem normalize_rms_unit_witness :
    centerOfMass (polydataR (normalizeActor exActor) true) = 0 ∧
    ((polydataR (normalizeActor exActor) true).map
        (fun q => Vec3.normSq (q - centerOfMass (polydataR (normalizeActor exActor) true)))).sum
      / ((polydataR (normalizeActor exActor) true).length : ℝ) = 1 :=
  normalize_rms_unit exActor rfl (by simp [exActor, exPts])
    ⟨⟨1, 0, 0⟩, by rw [polydataR_id exActor rfl]; simp [exActor, exPts], by
      rw [polydataR_id exActor rfl]
      show (⟨1, 0, 0⟩ : RVec) ≠ centerOfMass exPts
      rw [exPts_centerOfMass]
      intro hq
      have hx := congrArg Vec3.x hq
      simp at hx⟩

theorem applyMat4R_transX5 (p : RVec) :
    applyMat4R transX5 p = ⟨p.x + 5, p.y, p.z⟩ := by
  unfold applyMat4R transX5
  simp [Matrix.of_apply]

theorem transX5_ne_one : transX5 ≠ 1 := by
  intro h
  have h03 := congrFun (congrFun h 0) 3
  rw [Matrix.one_apply_ne (by decide : (0 : Fin 4) ≠ 3)] at h03
  unfold transX5 at h03
  simp [Matrix.of_apply] at h03

theorem exActorMoved_view :
    polydataR exActorMoved true = [⟨5, 0, 0⟩, ⟨6, 0, 0⟩, ⟨4, 0, 0⟩] := by
  unfold polydataR
  rw [if_neg (by simp)]
  rw [if_neg (show ¬ exActorMoved.matrix = 1 from transX5_ne_one)]
  show exPts.map (applyMat4R transX5) = _
  simp only [exPts, List.map_cons, List.map_nil, applyMat4R_transX5]
  norm_num

theorem exMoved_cm :
    centerOfMass [⟨5, 0, 0⟩, ⟨6, 0, 0⟩, ⟨4, 0, 0⟩] = ⟨5, 0, 0⟩ := by
  apply vec_ext <;> (simp [centerOfMass]; try norm_num)

theorem exMoved_sumsq :
    (([⟨5, 0, 0⟩, ⟨6, 0, 0⟩, ⟨4, 0, 0⟩] : List RVec).map
        (fun p => Vec3.normSq (p - ⟨5, 0, 0⟩))).sum = 2 := by
  simp [Vec3.normSq]
  norm_num

theorem exActorMoved_normalized :
    normalizeActor exActorMoved =
      { poly := [⟨(1 / Real.sqrt (2/3)) * (0 - 5), 0, 0⟩,
                 ⟨(1 / Real.sqrt (2/3)) * (1 - 5), 0, 0⟩,
                 ⟨(1 / Real.sqrt (2/3)) * (-1 - 5), 0, 0⟩],
        matrix := transX5 } := by
  simp only [normalizeActor, exActorMoved_view, exMoved_cm, exMoved_sumsq]
  norm_num
  show exActorMoved.poly.map _ = _ ∧ exActorMoved.matrix = transX5
  refine ⟨?_, rfl⟩
  show exPts.map _ = _
  simp only [exPts, List.map_cons, List.map_nil, Vec3.smul_def, Vec3.sub_def]
  norm_num

/-- Counterexample for C7 as stated: (a) for the identity-transform actor
over (0,0,0), (1,0,0), (-1,0,0) the mean vertex-to-centroid distance after
`normalize()` is `2/sqrt(6) ≠ 1` (the code normalizes the root-mean-square
distance); and (b) for the same mesh moved by `SetPosition(5,0,0)` even the
center of mass of the post-call actor is not at the origin (it is
`5 - 5*sqrt(3/2)` along x), because the warp uses the transformed centroid on
the untransformed buffer and the actor matrix is never reset. -/
theorem normalize_meanDist_counterexample :
    averageSize (normalizeActor exActor) ≠ 1 ∧
    centerOfMass (polydataR (normalizeActor exActorMoved) true) ≠ 0 := by
  have hc2 : (1 / Real.sqrt (2/3)) ^ 2 = 3/2 := by
    rw [div_pow, one_pow, Real.sq_sqrt (by norm_num : (0:ℝ) ≤ 2/3)]
    norm_num
  constructor
  · have hEx : exActor.poly ≠ [] := by simp [exActor, exPts]
    have hS : (exPts.map (fun p => Vec3.normSq (p - centerOfMass exPts))).sum = 2 := by
      rw [exPts_centerOfMass]
      simp [exPts, Vec3.normSq]
      norm_num
    have hform : normalizePts exPts =
        [⟨0, 0, 0⟩, ⟨1 / Real.sqrt (2/3), 0, 0⟩, ⟨-(1 / Real.sqrt (2/3)), 0, 0⟩] := by
      simp only [normalizePts]
      rw [hS, exPts_centerOfMass]
      norm_num [exPts, Vec3.smul_def]
    have hc : (0:ℝ) ≤ 1 / Real.sqrt (2/3) := by positivity
    have havg : averageSize (normalizeActor exActor) = 2 * (1 / Real.sqrt (2/3)) / 3 := by
      rw [averageSize, normalizeActor_id exActor rfl hEx,
        polydataR_id { poly := normalizePts exActor.poly, matrix := exActor.matrix } rfl]
      show meanDistPts (normalizePts exPts) = _
      rw [hform]
      exact meanDistPts_symm3 _ hc
    rw [havg]
    intro heq
    have hval : (1 / Real.sqrt (2/3)) = 3/2 := by linarith
    rw [hval] at hc2
    norm_num at hc2
  · have hview2 : polydataR (normalizeActor exActorMoved) true =
        [⟨(1 / Real.sqrt (2/3)) * (0 - 5) + 5, 0, 0⟩,
         ⟨(1 / Real.sqrt (2/3)) * (1 - 5) + 5, 0, 0⟩,
         ⟨(1 / Real.sqrt (2/3)) * (-1 - 5) + 5, 0, 0⟩] := by
      rw [exActorMoved_normalized]
      unfold polydataR
      rw [if_neg (by simp)]
      rw [if_neg (show ¬ ({ poly := _, matrix := transX5 } : RActor).matrix = 1 from
        transX5_ne_one)]
      simp only [List.map_cons, List.map_nil, applyMat4R_transX5]
    rw [hview2]
    intro hq
    have hx := congrArg Vec3.x hq
    simp only [centerOfMass, List.length_cons, List.length_nil, vlistSum_cons,
      vlistSum_nil, smul_x, add_x, zero_x, Nat.cast_ofNat] at hx
    have hval : (1 / Real.sqrt (2/3)) = 1 := by linarith [hx]
    rw [hval] at hc2
    norm_num at hc2

/-- C8: after `setPoints(newCoords)` of matching length, `coordinates()`
returns exactly `newCoords` and the transform is the identity; and for an
Actor built from a raw vertex array (identity transform),
`coordinates(copy=True)` equals that raw array. -/
theorem setPoints_coordinates_roundtrip (a : ActorGeom) (pts : List QVec)
    (hlen : pts.length = a.poly.length) :
    coordinates (setPoints a pts) true false = pts ∧
    (setPoints a pts).matrix = 1 ∧
    ∀ raw : List QVec, coordinates (mkActorFromPoints raw) true true = raw := by
  refine ⟨?_, rfl, ?_⟩
  · simp [coordinates, polydataOf, setPoints]
  · intro raw
    simp [coordinates, polydataOf, mkActorFromPoints]

/-- Witness for C8 on a one-point actor. -/
theorem setPoints_coordinates_roundtrip_witness :
    coordinates (setPoints (mkActorFromPoints [⟨0, 0, 0⟩]) [⟨5, 5, 5⟩]) true false
        = [⟨5, 5, 5⟩] ∧
    (setPoints (mkActorFromPoints [⟨0, 0, 0⟩]) [⟨5, 5, 5⟩]).matrix = 1 ∧
    coordinates (mkActorFromPoints [⟨7, 8, 9⟩]) true true = [⟨7, 8, 9⟩] := by
  have h := setPoints_coordinates_roundtrip (mkActorFromPoints [⟨0, 0, 0⟩])
    [⟨5, 5, 5⟩] rfl
  exact ⟨h.1, h.2.1, h.2.2 [⟨7, 8, 9⟩]⟩

/-- Counterexample for C9 as stated: on a 4×4×4 volume a negative slice index
is NOT clamped into the valid range — it is passed straight into the extent. -/
theorem slice_negative_counterexample :
    (xSlice 4 4 4 (-1)).1 = -1 ∧ ¬ (0 ≤ (xSlice 4 4 4 (-1)).1) ∧
    (ySlice 4 4 4 (-2)).2.2.1 = -2 ∧
    (zSlice 4 4 4 (-3)).2.2.2.2.1 = -3 := by
  refine ⟨?_, ?_, ?_, ?_⟩ <;> norm_num [xSlice, ySlice, zSlice]

/-- C9 (amended): the slice index is clamped only from above — for volumes
with at least one voxel per axis and non-negative indices the extracted
extent index always lies in the valid index range `[0, n-1]` of its axis
(an index past the end is replaced by the last valid index); negative
indices pass through unclamped. -/
theorem slice_clamps_upper (nx ny nz : ℕ) (i j k : ℤ)
    (hnx : 1 ≤ nx) (hny : 1 ≤ ny) (hnz : 1 ≤ nz)
    (hi : 0 ≤ i) (hj : 0 ≤ j) (hk : 0 ≤ k) :
    (0 ≤ (xSlice nx ny nz i).1 ∧ (xSlice nx ny nz i).1 ≤ (nx : ℤ) - 1) ∧
    (0 ≤ (ySlice nx ny nz j).2.2.1 ∧ (ySlice nx ny nz j).2.2.1 ≤ (ny : ℤ) - 1) ∧
    (0 ≤ (zSlice nx ny nz k).2.2.2.2.1 ∧ (zSlice nx ny nz k).2.2.2.2.1 ≤ (nz : ℤ) - 1) := by
  refine ⟨?_, ?_, ?_⟩
  · simp only [xSlice]
    by_cases h : i > (nx : ℤ) - 1 <;> simp [h] <;> omega
  · simp only [ySlice]
    by_cases h : j > (ny : ℤ) - 1 <;> simp [h] <;> omega
  · simp only [zSlice]
    by_cases h : k > (nz : ℤ) - 1 <;> simp [h] <;> omega

/-- Witness for C9 on a 4×4×4 volume with index 10 on each axis. -/
theorem slice_clamps_upper_witness :
    (0 ≤ (xSlice 4 4 4 10).1 ∧ (xSlice 4 4 4 10).1 ≤ (4 : ℤ) - 1) ∧
    (0 ≤ (ySlice 4 4 4 10).2.2.1 ∧ (ySlice 4 4 4 10).2.2.1 ≤ (4 : ℤ) - 1) ∧
    (0 ≤ (zSlice 4 4 4 10).2.2.2.2.1 ∧ (zSlice 4 4 4 10).2.2.2.2.1 ≤ (4 : ℤ) - 1) :=
  slice_clamps_upper 4 4 4 10 10 10 (by norm_num) (by norm_num) (by norm_num)
    (by norm_num) (by norm_num) (by norm_num)

/-- C10: constructing an Actor from a polydata with at least one point and
zero cells inserts one single-point vertex cell per point (cell count =
point count), and the conversion happens on the caller's own object, which
ends up aliased by — equal to and shared with — the actor's buffer. -/
theorem actor_pointcloud_verts (pd : PolyData) (h0 : pd.numCells = 0)
    (hp : 0 < pd.points.length) :
    (actorInitFromPolyData pd).actorPoly.verts =
      (List.range pd.points.length).map (fun i => [i]) ∧
    (actorInitFromPolyData pd).actorPoly.numCells = pd.points.length ∧
    (actorInitFromPolyData pd).callerPoly = (actorInitFromPolyData pd).actorPoly ∧
    (actorInitFromPolyData pd).aliased = true ∧
    (actorInitFromPolyData pd).callerPoly ≠ pd := by
  have hsplit : pd.verts.length = 0 ∧ pd.lineCells.length = 0 ∧
      pd.polyCells.length = 0 := by
    simp only [PolyData.numCells] at h0
    omega
  have hv : pd.verts = [] := List.length_eq_zero.1 hsplit.1
  have hlc : pd.lineCells = [] := List.length_eq_zero.1 hsplit.2.1
  have hpc : pd.polyCells = [] := List.length_eq_zero.1 hsplit.2.2
  refine ⟨?_, ?_, ?_, ?_, ?_⟩
  · simp [actorInitFromPolyData, h0]
  · simp [actorInitFromPolyData, PolyData.numCells, h0, hv, hlc, hpc]
  · simp [actorInitFromPolyData, h0]
  · simp [actorInitFromPolyData, h0]
  · intro heq
    have hlen := congrArg (fun q => q.verts.length) heq
    simp [actorInitFromPolyData, h0, hv] at hlen
    rw [hlen] at hp
    simp at hp

/-- Witness for C10 on a two-point, cell-less polydata. -/
theorem actor_pointcloud_verts_witness :
    (actorInitFromPolyData ⟨[⟨0, 0, 0⟩, ⟨1, 1, 1⟩], [], [], []⟩).actorPoly.numCells = 2 ∧
    (actorInitFromPolyData ⟨[⟨0, 0, 0⟩, ⟨1, 1, 1⟩], [], [], []⟩).callerPoly =
      (actorInitFromPolyData ⟨[⟨0, 0, 0⟩, ⟨1, 1, 1⟩], [], [], []⟩).actorPoly := by
  have h := actor_pointcloud_verts ⟨[⟨0, 0, 0⟩, ⟨1, 1, 1⟩], [], [], []⟩ rfl
    (by norm_num)
  exact ⟨h.2.1, h.2.2.1⟩

end VtkPlotter
